import Mathlib

/-!
Verification development for the SWMM binary-output reader
(`src/outputAPI.c`) and its date/time helper (`src/datetime.c`).

Modelling conventions:
* The output file is modelled as a total map from byte offsets to byte
  values (`ByteFile`).  A 4-byte read at offset `o` yields the
  little-endian number formed by the bytes at `o`, `o+1`, `o+2`, `o+3`;
  two scalar reads return the same `float` exactly when they return the
  same 4 raw bytes, so scalar results are compared as raw words.
* C `int` (32-bit) arithmetic is modelled on unbounded `Int` with an
  explicit two's-complement wrap (`wrap32`) applied where the source
  computes a full expression in `int` before widening it to the 64-bit
  `F_OFF`/`long` types.  Theorems that need the `int` arithmetic not to
  overflow carry explicit range hypotheses (overflow of signed `int` is
  undefined behaviour in C).
* `F_OFF` (`off64_t`) and `long` file arithmetic is modelled on
  unbounded `Int`.
* Out-parameters become components of a returned tuple or structure;
  a `NULL` output buffer becomes an `outNull : Bool` flag; `FILE*`
  being `NULL` becomes `fileOpen : Bool` on the handle.
* Loops become fuelled or bounded recursions over the same loop body.
-/

namespace Swmm

/-- `RECORDSIZE` from outputAPI.c: the 4-byte word size used for ints and reals. -/
def RECORDSIZE : Int := 4

/-- `DATESIZE` from outputAPI.c: dates are stored as 8-byte doubles. -/
def DATESIZE : Int := 8

/-- Two's-complement wrap to a signed 32-bit value, modelling the value of a
C `int` expression.  Identity on `[-2^31, 2^31)`. -/
def wrap32 (x : Int) : Int := (x + 2 ^ 31) % 2 ^ 32 - 2 ^ 31

/-- The binary output file: byte value stored at each (64-bit) offset. -/
def ByteFile : Type := Int → Nat

/-- A 4-byte little-endian read at offset `o` (the raw 32-bit word;
`fread(&value, RECORDSIZE, 1, file)` in the source). -/
def read4 (f : ByteFile) (o : Int) : Nat :=
  f o + 256 * f (o + 1) + 256 ^ 2 * f (o + 2) + 256 ^ 3 * f (o + 3)

/-- Reinterpret a raw 32-bit word as a signed C `int`/`INT4` value. -/
def signed32 (v : Nat) : Int := if v < 2 ^ 31 then (v : Int) else (v : Int) - 2 ^ 32

/-- The fields of `struct SMOutputAPI` that the query surface reads
(outputAPI.c lines 36-62).  `fileOpen` models `file != NULL`;
`elementNamesLoaded` models `elementNames != NULL`.  `StartDate` is a
`double` in the source; it is only ever copied opaquely (never used in
arithmetic by the reader), so it is carried as an integer code here. -/
structure SMOutputAPI where
  fileOpen : Bool
  elementNamesLoaded : Bool
  Nperiods : Int
  FlowUnits : Int
  Nsubcatch : Int
  Nnodes : Int
  Nlinks : Int
  Npolluts : Int
  SubcatchVars : Int
  NodeVars : Int
  LinkVars : Int
  SysVars : Int
  StartDate : Int
  ReportStep : Int
  IDPos : Int
  ObjPropPos : Int
  ResultsPos : Int
  BytesPerPeriod : Int

/-- `BytesPerPeriod` as computed at the end of `SMO_open`
(outputAPI.c lines 139-143).  The whole right-hand side is a C `int`
expression, hence the wrap. -/
def openBytesPerPeriod (Nsubcatch SubcatchVars Nnodes NodeVars Nlinks LinkVars SysVars : Int) :
    Int :=
  wrap32 (DATESIZE +
    (Nsubcatch * SubcatchVars + Nnodes * NodeVars + Nlinks * LinkVars + SysVars) * RECORDSIZE)

/-- Offset computed by `getSubcatchValue` (outputAPI.c lines 797-813).
The parenthesised entity/attribute part is `int` arithmetic. -/
def subcatchValueOffset (h : SMOutputAPI) (timeIndex subcatchIndex attr : Int) : Int :=
  h.ResultsPos + timeIndex * h.BytesPerPeriod + 2 * RECORDSIZE +
    wrap32 (RECORDSIZE * (subcatchIndex * h.SubcatchVars + attr))

/-- `getSubcatchValue`: one 4-byte read at `subcatchValueOffset`. -/
def getSubcatchValue (h : SMOutputAPI) (f : ByteFile) (timeIndex subcatchIndex attr : Int) :
    Nat :=
  read4 f (subcatchValueOffset h timeIndex subcatchIndex attr)

/-- Offset computed by `getNodeValue` (outputAPI.c lines 815-831). -/
def nodeValueOffset (h : SMOutputAPI) (timeIndex nodeIndex attr : Int) : Int :=
  h.ResultsPos + timeIndex * h.BytesPerPeriod + 2 * RECORDSIZE +
    wrap32 (RECORDSIZE *
      (h.Nsubcatch * h.SubcatchVars + nodeIndex * h.NodeVars + attr))

/-- `getNodeValue`: one 4-byte read at `nodeValueOffset`. -/
def getNodeValue (h : SMOutputAPI) (f : ByteFile) (timeIndex nodeIndex attr : Int) : Nat :=
  read4 f (nodeValueOffset h timeIndex nodeIndex attr)

/-- Offset computed by `getLinkValue` (outputAPI.c lines 834-851). -/
def linkValueOffset (h : SMOutputAPI) (timeIndex linkIndex attr : Int) : Int :=
  h.ResultsPos + timeIndex * h.BytesPerPeriod + 2 * RECORDSIZE +
    wrap32 (RECORDSIZE *
      (h.Nsubcatch * h.SubcatchVars + h.Nnodes * h.NodeVars + linkIndex * h.LinkVars + attr))

/-- `getLinkValue`: one 4-byte read at `linkValueOffset`. -/
def getLinkValue (h : SMOutputAPI) (f : ByteFile) (timeIndex linkIndex attr : Int) : Nat :=
  read4 f (linkValueOffset h timeIndex linkIndex attr)

/-- Offset computed by `getSystemValue` (outputAPI.c lines 853-870). -/
def systemValueOffset (h : SMOutputAPI) (timeIndex attr : Int) : Int :=
  h.ResultsPos + timeIndex * h.BytesPerPeriod + 2 * RECORDSIZE +
    wrap32 (RECORDSIZE *
      (h.Nsubcatch * h.SubcatchVars + h.Nnodes * h.NodeVars + h.Nlinks * h.LinkVars + attr))

/-- `getSystemValue`: one 4-byte read at `systemValueOffset`. -/
def getSystemValue (h : SMOutputAPI) (f : ByteFile) (timeIndex attr : Int) : Nat :=
  read4 f (systemValueOffset h timeIndex attr)

/-- Result of one query-surface call: the returned error code, whether the
seek-and-read body of the function executed, and the sequence of raw
4-byte words written to the output buffer (in buffer order). -/
structure OutCall where
  errorcode : Int
  touchesFile : Bool
  outValues : List Nat

/-- `SMO_getSubcatchSeries` (outputAPI.c lines 380-402): guards, then the
loop `for k in [0, length)` writing `getSubcatchValue(timeIndex+k, i, a)`.
A non-positive `length` runs the loop zero times. -/
def SMO_getSubcatchSeries (h : SMOutputAPI) (f : ByteFile)
    (subcatchIndex attr timeIndex length : Int) (outNull : Bool) : OutCall :=
  if !h.fileOpen then ⟨412, false, []⟩
  else if outNull then ⟨411, false, []⟩
  else ⟨0, true,
    (List.range length.toNat).map fun k : Nat =>
      getSubcatchValue h f (timeIndex + (k : Int)) subcatchIndex attr⟩

/-- `SMO_getNodeSeries` (outputAPI.c lines 405-427). -/
def SMO_getNodeSeries (h : SMOutputAPI) (f : ByteFile)
    (nodeIndex attr timeIndex length : Int) (outNull : Bool) : OutCall :=
  if !h.fileOpen then ⟨412, false, []⟩
  else if outNull then ⟨411, false, []⟩
  else ⟨0, true,
    (List.range length.toNat).map fun k : Nat =>
      getNodeValue h f (timeIndex + (k : Int)) nodeIndex attr⟩

/-- `SMO_getLinkSeries` (outputAPI.c lines 430-451). -/
def SMO_getLinkSeries (h : SMOutputAPI) (f : ByteFile)
    (linkIndex attr timeIndex length : Int) (outNull : Bool) : OutCall :=
  if !h.fileOpen then ⟨412, false, []⟩
  else if outNull then ⟨411, false, []⟩
  else ⟨0, true,
    (List.range length.toNat).map fun k : Nat =>
      getLinkValue h f (timeIndex + (k : Int)) linkIndex attr⟩

/-- `SMO_getSystemSeries` (outputAPI.c lines 455-476). -/
def SMO_getSystemSeries (h : SMOutputAPI) (f : ByteFile)
    (attr timeIndex length : Int) (outNull : Bool) : OutCall :=
  if !h.fileOpen then ⟨412, false, []⟩
  else if outNull then ⟨411, false, []⟩
  else ⟨0, true,
    (List.range length.toNat).map fun k : Nat =>
      getSystemValue h f (timeIndex + (k : Int)) attr⟩

/-- `SMO_getSubcatchAttribute` (outputAPI.c lines 478-498): one scalar read
per subcatchment index `k in [0, Nsubcatch)`. -/
def SMO_getSubcatchAttribute (h : SMOutputAPI) (f : ByteFile)
    (timeIndex attr : Int) (outNull : Bool) : OutCall :=
  if !h.fileOpen then ⟨412, false, []⟩
  else if outNull then ⟨411, false, []⟩
  else ⟨0, true,
    (List.range h.Nsubcatch.toNat).map fun k : Nat =>
      getSubcatchValue h f timeIndex (k : Int) attr⟩

/-- `SMO_getNodeAttribute` (outputAPI.c lines 502-522). -/
def SMO_getNodeAttribute (h : SMOutputAPI) (f : ByteFile)
    (timeIndex attr : Int) (outNull : Bool) : OutCall :=
  if !h.fileOpen then ⟨412, false, []⟩
  else if outNull then ⟨411, false, []⟩
  else ⟨0, true,
    (List.range h.Nnodes.toNat).map fun k : Nat =>
      getNodeValue h f timeIndex (k : Int) attr⟩

/-- `SMO_getLinkAttribute` (outputAPI.c lines 524-544). -/
def SMO_getLinkAttribute (h : SMOutputAPI) (f : ByteFile)
    (timeIndex attr : Int) (outNull : Bool) : OutCall :=
  if !h.fileOpen then ⟨412, false, []⟩
  else if outNull then ⟨411, false, []⟩
  else ⟨0, true,
    (List.range h.Nlinks.toNat).map fun k : Nat =>
      getLinkValue h f timeIndex (k : Int) attr⟩

/-- `SMO_getSystemAttribute` (outputAPI.c lines 547-564): a single write of
`getSystemValue` into `outValueArray[0]` (there is only one system). -/
def SMO_getSystemAttribute (h : SMOutputAPI) (f : ByteFile)
    (timeIndex attr : Int) (outNull : Bool) : OutCall :=
  if !h.fileOpen then ⟨412, false, []⟩
  else if outNull then ⟨411, false, []⟩
  else ⟨0, true, [getSystemValue h f timeIndex attr]⟩

/-- Base offset of the bulk read in `SMO_getSubcatchResult`
(outputAPI.c lines 581-583); the entity part is `int` arithmetic. -/
def subcatchResultBase (h : SMOutputAPI) (timeIndex subcatchIndex : Int) : Int :=
  h.ResultsPos + timeIndex * h.BytesPerPeriod + 2 * RECORDSIZE +
    wrap32 ((subcatchIndex * h.SubcatchVars) * RECORDSIZE)

/-- `SMO_getSubcatchResult` (outputAPI.c lines 566-590): one bulk `fread`
of `SubcatchVars` consecutive 4-byte floats starting at
`subcatchResultBase`. -/
def SMO_getSubcatchResult (h : SMOutputAPI) (f : ByteFile)
    (timeIndex subcatchIndex : Int) (outNull : Bool) : OutCall :=
  if !h.fileOpen then ⟨412, false, []⟩
  else if outNull then ⟨411, false, []⟩
  else ⟨0, true,
    (List.range h.SubcatchVars.toNat).map fun j : Nat =>
      read4 f (subcatchResultBase h timeIndex subcatchIndex + RECORDSIZE * (j : Int))⟩

/-- Base offset of the bulk read in `SMO_getNodeResult`
(outputAPI.c lines 608-610). -/
def nodeResultBase (h : SMOutputAPI) (timeIndex nodeIndex : Int) : Int :=
  h.ResultsPos + timeIndex * h.BytesPerPeriod + 2 * RECORDSIZE +
    wrap32 ((h.Nsubcatch * h.SubcatchVars + nodeIndex * h.NodeVars) * RECORDSIZE)

/-- `SMO_getNodeResult` (outputAPI.c lines 593-617). -/
def SMO_getNodeResult (h : SMOutputAPI) (f : ByteFile)
    (timeIndex nodeIndex : Int) (outNull : Bool) : OutCall :=
  if !h.fileOpen then ⟨412, false, []⟩
  else if outNull then ⟨411, false, []⟩
  else ⟨0, true,
    (List.range h.NodeVars.toNat).map fun j : Nat =>
      read4 f (nodeResultBase h timeIndex nodeIndex + RECORDSIZE * (j : Int))⟩

/-- Base offset of the bulk read in `SMO_getLinkResult`
(outputAPI.c lines 635-638). -/
def linkResultBase (h : SMOutputAPI) (timeIndex linkIndex : Int) : Int :=
  h.ResultsPos + timeIndex * h.BytesPerPeriod + 2 * RECORDSIZE +
    wrap32 ((h.Nsubcatch * h.SubcatchVars + h.Nnodes * h.NodeVars +
      linkIndex * h.LinkVars) * RECORDSIZE)

/-- `SMO_getLinkResult` (outputAPI.c lines 620-645). -/
def SMO_getLinkResult (h : SMOutputAPI) (f : ByteFile)
    (timeIndex linkIndex : Int) (outNull : Bool) : OutCall :=
  if !h.fileOpen then ⟨412, false, []⟩
  else if outNull then ⟨411, false, []⟩
  else ⟨0, true,
    (List.range h.LinkVars.toNat).map fun j : Nat =>
      read4 f (linkResultBase h timeIndex linkIndex + RECORDSIZE * (j : Int))⟩

/-- Base offset of the bulk read in `SMO_getSystemResult`
(outputAPI.c lines 660-663). -/
def systemResultBase (h : SMOutputAPI) (timeIndex : Int) : Int :=
  h.ResultsPos + timeIndex * h.BytesPerPeriod + 2 * RECORDSIZE +
    wrap32 ((h.Nsubcatch * h.SubcatchVars + h.Nnodes * h.NodeVars +
      h.Nlinks * h.LinkVars) * RECORDSIZE)

/-- `SMO_getSystemResult` (outputAPI.c lines 647-670).  In the source the
`else` branch before the compound statement is missing, so the
seek-and-read block executes unconditionally: the guards only assign
`errorcode`, and the function then always seeks and reads (even with a
`NULL` file or a `NULL` output buffer). -/
def SMO_getSystemResult (h : SMOutputAPI) (f : ByteFile)
    (timeIndex : Int) (outNull : Bool) : OutCall :=
  let errorcode : Int := if !h.fileOpen then 412 else if outNull then 411 else 0
  ⟨errorcode, true,
    (List.range h.SysVars.toNat).map fun j : Nat =>
      read4 f (systemResultBase h timeIndex + RECORDSIZE * (j : Int))⟩

/-- `SMO_getProjectSize` (outputAPI.c lines 153-179).  The enum
`SMO_elementCount` is carried as its C integer value
(`subcatchCount=0, nodeCount=1, linkCount=2, pollutantCount=3`).
Returns `(errorcode, *count)`; `*count` is set to `-1` before any check. -/
def SMO_getProjectSize (h : SMOutputAPI) (code : Int) : Int × Int :=
  if !h.fileOpen then (412, -1)
  else if code = 0 then (0, h.Nsubcatch)
  else if code = 1 then (0, h.Nnodes)
  else if code = 2 then (0, h.Nlinks)
  else if code = 3 then (0, h.Npolluts)
  else (421, -1)

/-- `SMO_getUnits` (outputAPI.c lines 182-213).  `SMO_unit` codes:
`flow_rate=0` (the `concentration` case is commented out in the source).
Returns `(errorcode, *unitFlag)`; `*unitFlag` starts at `-1`. -/
def SMO_getUnits (h : SMOutputAPI) (code : Int) : Int × Int :=
  if !h.fileOpen then (412, -1)
  else if code = 0 then (0, h.FlowUnits)
  else (421, -1)

/-- `SMO_getStartTime` (outputAPI.c lines 215-228).
Returns `(errorcode, *time)`; `*time` starts at `-1`. -/
def SMO_getStartTime (h : SMOutputAPI) : Int × Int :=
  if !h.fileOpen then (412, -1)
  else (0, h.StartDate)

/-- `SMO_getTimes` (outputAPI.c lines 231-253).  `SMO_time` codes:
`reportStep=0, numPeriods=1`.  Returns `(errorcode, *time)`;
`*time` starts at `-1`. -/
def SMO_getTimes (h : SMOutputAPI) (code : Int) : Int × Int :=
  if !h.fileOpen then (412, -1)
  else if code = 0 then (0, h.ReportStep)
  else if code = 1 then (0, h.Nperiods)
  else (421, -1)

/-- `SMO_getElementName` (outputAPI.c lines 255-294).  `SMO_elementType`
codes: `subcatch=0, node=1, link=2, sys=3`.  The source never checks
`smoapi->file`; when `elementNames == NULL` it first calls
`initElementNames`, which seeks to `IDPos` and reads the ID table from
the file.  The second component records whether that file access
happened on this call. -/
def SMO_getElementName (h : SMOutputAPI) (ty index : Int) : Int × Bool :=
  let touches := !h.elementNamesLoaded
  let errorcode : Int :=
    if ty = 0 then (if index < 0 ∨ h.Nsubcatch ≤ index then 423 else 0)
    else if ty = 1 then (if index < 0 ∨ h.Nnodes ≤ index then 423 else 0)
    else if ty = 2 then (if index < 0 ∨ h.Nlinks ≤ index then 423 else 0)
    else if ty = 3 then (if index < 0 ∨ h.Npolluts ≤ index then 423 else 0)
    else 421
  (errorcode, touches)

/-- `SMO_newOutValueSeries` (outputAPI.c lines 297-323).
`size = seriesLength - seriesStart` capped at `Nperiods`; the buffer is
`calloc`ed (zero-filled) and `*length = size`.  Allocation is modelled as
succeeding (`MEMCHECK` then yields errcode 0); a non-positive `size`
yields an empty buffer.  When the file is `NULL` the source returns
`NULL` without writing `*length`, modelled by `none`. -/
def SMO_newOutValueSeries (h : SMOutputAPI) (seriesStart seriesLength : Int) :
    List Nat × Option Int × Int :=
  if !h.fileOpen then ([], none, 412)
  else
    let size : Int :=
      if seriesLength - seriesStart > h.Nperiods then h.Nperiods
      else seriesLength - seriesStart
    (List.replicate size.toNat 0, some size, 0)

/-- `ERR411` from outputAPI.h. -/
def ERR411 : String := "Input Error 411: no memory allocated for results."

/-- `ERR412` from outputAPI.h. -/
def ERR412 : String := "Input Error 412: no results; binary file hasn\x27t been opened."

/-- `ERR421` from outputAPI.h. -/
def ERR421 : String := "Input Error 421: invalid parameter code."

/-- `ERR434` from outputAPI.h. -/
def ERR434 : String := "File Error  434: unable to open binary output file."

/-- `ERR435` from outputAPI.h. -/
def ERR435 : String := "File Error  435: run terminated; no results in binary file."

/-- `strncpy(errmsg, MSG, n)`: at most `n` characters are copied. -/
def strncpyTo (s : String) (n : Nat) : String := String.mk (s.data.take n)

/-- `SMO_errMessage` (outputAPI.c lines 709-730): the switch covers exactly
the codes 411, 412, 421, 434 and 435; every other code falls through to
`default: return 421` without writing the message buffer (`none`). -/
def SMO_errMessage (errcode : Int) (n : Nat) : Int × Option String :=
  if errcode = 411 then (0, some (strncpyTo ERR411 n))
  else if errcode = 412 then (0, some (strncpyTo ERR412 n))
  else if errcode = 421 then (0, some (strncpyTo ERR421 n))
  else if errcode = 434 then (0, some (strncpyTo ERR434 n))
  else if errcode = 435 then (0, some (strncpyTo ERR435 n))
  else (421, none)

/-- The six 32-bit fields read from the last 24 bytes of the file by
`validateFile` (outputAPI.c lines 740-746), plus the leading magic
number read from offset 0 (line 750).  Each `fread` reads one 4-byte
little-endian word; the values are interpreted as signed 32-bit here
(the destination fields are wider, but only the 4 read bytes carry
file data). -/
structure EpilogueData where
  IDPos : Int
  ObjPropPos : Int
  ResultsPos : Int
  Nperiods : Int
  errcode : Int
  magic2 : Int
  magic1 : Int

/-- Decode the epilogue (and the leading magic) of a file of `size` bytes. -/
def readEpilogue (f : ByteFile) (size : Int) : EpilogueData :=
  { IDPos := signed32 (read4 f (size - 24))
    ObjPropPos := signed32 (read4 f (size - 20))
    ResultsPos := signed32 (read4 f (size - 16))
    Nperiods := signed32 (read4 f (size - 12))
    errcode := signed32 (read4 f (size - 8))
    magic2 := signed32 (read4 f (size - 4))
    magic1 := signed32 (read4 f 0) }

/-- `validateFile` (outputAPI.c lines 734-760): after reading the epilogue
it checks, in this order: leading magic differs from trailing magic
(435), then `Nperiods <= 0` (436), then the stored run error code
being non-zero (435). -/
def validateFile (f : ByteFile) (size : Int) : Int :=
  let e := readEpilogue f size
  if e.magic1 ≠ e.magic2 then 435
  else if e.Nperiods ≤ 0 then 436
  else if e.errcode ≠ 0 then 435
  else 0

/-- The error code returned by `SMO_open` (outputAPI.c lines 91-150):
434 when the OS `fopen` fails, otherwise the `validateFile` result
(0 on success, after which the header is read). -/
def SMO_open_err (fopenOk : Bool) (f : ByteFile) (size : Int) : Int :=
  if !fopenOk then 434
  else validateFile f size

/-- `DateDelta` from datetime.c: days from 0001-01-01 to the 1899-12-30
epoch. -/
def DateDelta : Int := 693594

/-- One row of the `DaysPerMonth` table from datetime.c (row 1 for leap
years, row 0 for normal years). -/
def daysPerMonthRow (leap : Int) : List Int :=
  if leap = 1 then [31, 29, 31, 30, 31, 30, 31, 31, 30, 31, 30, 31]
  else [31, 28, 31, 30, 31, 30, 31, 31, 30, 31, 30, 31]

/-- `DaysPerMonth[leap][m0]`.  All source reads are in bounds
(`leap ∈ {0,1}`, `0 ≤ m0 ≤ 11`); out-of-range indices fall back to 0. -/
def DaysPerMonth (leap m0 : Int) : Int := (daysPerMonthRow leap).getD m0.toNat 0

/-- `isLeapYear` (datetime.c lines 68-79); C `%` is the truncated
remainder `Int.tmod`. -/
def isLeapYear (year : Int) : Int :=
  if year.tmod 4 = 0 ∧ (year.tmod 100 ≠ 0 ∨ year.tmod 400 = 0) then 1 else 0

/-- `datetime_encodeDate` (datetime.c lines 102-125).  The result is a C
`double` holding an integer of magnitude below 2^22 (hence exactly
representable), so the function is stated on `Int`.  C `/` on the
nonnegative `year - 1` is the truncated division `Int.tdiv`. -/
def datetime_encodeDate (year month day : Int) : Int :=
  let i := isLeapYear year
  if 1 ≤ year ∧ year ≤ 9999 ∧ 1 ≤ month ∧ month ≤ 12 ∧ 1 ≤ day ∧
      day ≤ DaysPerMonth i (month - 1) then
    let dday := day +
      (((List.range (month - 1).toNat).map fun j : Nat => DaysPerMonth i (j : Int)).sum)
    let a := year - 1
    a * 365 + a.tdiv 4 - a.tdiv 100 + a.tdiv 400 + dday - DateDelta
  else -DateDelta

/-- `datetime_daysPerMonth` (datetime.c lines 492-502). -/
def datetime_daysPerMonth (year month : Int) : Int :=
  if month < 1 ∨ month > 12 then 0
  else DaysPerMonth (isLeapYear year) (month - 1)

/-- The `while (t >= D400)` loop of `datetime_decodeDate` (datetime.c
lines 179-183): repeatedly subtract `D400 = 146097` and accumulate 400
years.  Written with explicit fuel; each iteration strictly decreases
`t`, so any fuel bounding the iteration count reproduces the loop.
Returns the final `t` together with the years accumulated into `y`. -/
def decodeLoop400 (fuel t : Nat) : Nat × Nat :=
  match fuel with
  | 0 => (t, 0)
  | Nat.succ fuel =>
    if 146097 ≤ t then
      ((decodeLoop400 fuel (t - 146097)).1, (decodeLoop400 fuel (t - 146097)).2 + 400)
    else (t, 0)

/-- The month loop of `datetime_decodeDate` (datetime.c lines 201-207):
starting from `m = 1`, stop as soon as `d < DaysPerMonth[k][m-1]`,
otherwise subtract that month length and advance `m`.  The C loop is
unbounded; 12 iterations suffice for every day-remainder of a valid
year (beyond that the C code would index past the table). -/
def decodeMonthLoop (k : Int) (fuel m d : Nat) : Nat × Nat :=
  match fuel with
  | 0 => (m, d)
  | Nat.succ fuel =>
    let i := DaysPerMonth k ((m : Int) - 1)
    if (d : Int) < i then (m, d)
    else decodeMonthLoop k fuel (m + 1) (d - i.toNat)

/-- The year-extraction cascade of `datetime_decodeDate` (datetime.c lines
177-199), applied to `t - 1` (a nonnegative value there): the 400-year
loop followed by the `divMod` cascade with divisors `D100 = 36524`,
`D4 = 1461`, `D1 = 365` and the two `i == 4` adjustments.  All the
`divMod` calls act on nonnegative `int`s, so they are Nat division and
remainder.  The loop fuel `t1` always bounds the iteration count.
Returns the year and the day-of-year remainder fed to the month loop. -/
def decodeYear (t1 : Nat) : Nat × Nat :=
  let p := decodeLoop400 t1 t1
  let i1 := p.1 / 36524
  let d1 := p.1 % 36524
  let i1' := if i1 = 4 then i1 - 1 else i1
  let d1' := if i1 = 4 then d1 + 36524 else d1
  let i2 := d1' / 1461
  let d2 := d1' % 1461
  let i3 := d2 / 365
  let d3 := d2 % 365
  let i3' := if i3 = 4 then i3 - 1 else i3
  let d3' := if i3 = 4 then d3 + 365 else d3
  (1 + p.2 + i1' * 100 + i2 * 4 + i3', d3')

/-- `datetime_decodeDate` (datetime.c lines 151-213) on integral DateTime
values (for which `(int)floor(date) = date`): the year cascade, then
`isLeapYear` of the recovered year and the month loop.
Returns `(year, month, day)`. -/
def datetime_decodeDate (date : Int) : Int × Int × Int :=
  let t := date + DateDelta
  if t ≤ 0 then (0, 1, 1)
  else
    let yr := decodeYear (t - 1).toNat
    let k := isLeapYear (yr.1 : Int)
    let md := decodeMonthLoop k 12 1 yr.2
    ((yr.1 : Int), (md.1 : Int), (md.2 : Int) + 1)

/-- Days in all years before year `a + 1`: the Nat form of the quantity
`i*365 + i/4 - i/100 + i/400` computed by `datetime_encodeDate` for
`i = year - 1 ≥ 0`. -/
def priorDays (a : Nat) : Nat := 365 * a + a / 4 + a / 400 - a / 100

/-- Sum of the first `m0` month lengths of table row `leap`: the value the
encode loop `for (j = 0; j < month-1; j++) day += DaysPerMonth[i][j]`
adds to `day`. -/
def cumDays (leap : Int) (m0 : Nat) : Int :=
  ((List.range m0).map fun j : Nat => DaysPerMonth leap (j : Int)).sum

/-- A small concrete handle for the witnesses: one entity of each kind,
one reporting variable per kind, four periods, with `BytesPerPeriod`
as `SMO_open` computes it. -/
def demoHandle : SMOutputAPI where
  fileOpen := true
  elementNamesLoaded := false
  Nperiods := 4
  FlowUnits := 0
  Nsubcatch := 1
  Nnodes := 1
  Nlinks := 1
  Npolluts := 0
  SubcatchVars := 1
  NodeVars := 1
  LinkVars := 1
  SysVars := 1
  StartDate := 0
  ReportStep := 60
  IDPos := 28
  ObjPropPos := 36
  ResultsPos := 60
  BytesPerPeriod := openBytesPerPeriod 1 1 1 1 1 1 1

/-- `demoHandle` after a failed open (or before any open): `file == NULL`
and no ID table materialised. -/
def closedHandle : SMOutputAPI := { demoHandle with fileOpen := false }

/-- The all-zero file contents, for witnesses. -/
def zeroFile : ByteFile := fun _ => 0

/-- A concrete 28-byte file (leading magic, then the 24-byte epilogue at
offsets 4..27): leading magic 7 equals trailing magic 7, the stored
`Nperiods` (offset 16) is 0, and the stored run error code (offset 20)
is 1. -/
def magicErrFile : ByteFile := fun o =>
  if o = 0 then 7 else if o = 24 then 7 else if o = 20 then 1 else 0

/-- Spec-side definition, for comparison with the source's offsets (the one
definition here that follows the specification text rather than the
source): the absolute byte offset that §4.3 of the specification names
for a link scalar, `results_pos + p·bytes_per_period + 8 +
4·(n_sub·v_sub + n_node·v_node + i·v_link + a)`, with the §3 stride
`bytes_per_period = 8 + 4·(n_sub·v_sub + n_node·v_node + n_link·v_link
+ v_sys)`. -/
def specLinkScalarOffset (h : SMOutputAPI) (p i a : Int) : Int :=
  let bytesPerPeriod : Int := 8 +
    4 * (h.Nsubcatch * h.SubcatchVars + h.Nnodes * h.NodeVars + h.Nlinks * h.LinkVars +
      h.SysVars)
  h.ResultsPos + p * bytesPerPeriod + 8 +
    4 * (h.Nsubcatch * h.SubcatchVars + h.Nnodes * h.NodeVars + i * h.LinkVars + a)

/-- `wrap32` is the identity on values representable as a C `int`. -/
theorem wrap32_eq_self {x : Int} (h1 : -(2 ^ 31) ≤ x) (h2 : x < 2 ^ 31) : wrap32 x = x := by
  unfold wrap32
  omega

/-- The fuelled 400-year loop computes division by `D400 = 146097` whenever
the fuel bounds the iteration count. -/
theorem decodeLoop400_eq (fuel t : Nat) (hf : t ≤ 146097 * fuel + 146096) :
    decodeLoop400 fuel t = (t % 146097, 400 * (t / 146097)) := by
  induction fuel generalizing t with
  | zero =>
      simp only [decodeLoop400, Prod.mk.injEq]
      omega
  | succ fuel ih =>
      by_cases hc : 146097 ≤ t
      · simp only [decodeLoop400, if_pos hc, ih (t - 146097) (by omega), Prod.mk.injEq]
        omega
      · simp only [decodeLoop400, if_neg hc, Prod.mk.injEq]
        omega

/-- Closed form of `priorDays` on the base-(400,100,4) digit representation
of the year offset `a`. -/
theorem priorDays_of_rep (a A B C e : Nat) (hd : a = 400 * A + 100 * B + 4 * C + e)
    (hB : B ≤ 3) (hC : C ≤ 24) (he : e ≤ 3) :
    priorDays a = 146097 * A + 36524 * B + 1461 * C + 365 * e := by
  unfold priorDays
  subst hd
  omega

/-- The year-extraction cascade of `datetime_decodeDate` inverts
`priorDays`: for a day remainder `r` admissible for year `a + 1`
(`r = 365` only in a leap year), it returns exactly `(a + 1, r)`. -/
theorem decodeYear_eq (a r : Nat) (ha : a ≤ 9998)
    (hr : r ≤ 364 ∨
      (r = 365 ∧ (a + 1) % 4 = 0 ∧ ((a + 1) % 100 ≠ 0 ∨ (a + 1) % 400 = 0))) :
    decodeYear (priorDays a + r) = (a + 1, r) := by
  obtain ⟨A, B, C, e, hd, hB, hC, he⟩ :
      ∃ A B C e, a = 400 * A + 100 * B + 4 * C + e ∧ B ≤ 3 ∧ C ≤ 24 ∧ e ≤ 3 :=
    ⟨a / 400, a % 400 / 100, a % 400 % 100 / 4, a % 400 % 100 % 4, by omega, by omega,
      by omega, by omega⟩
  have hP := priorDays_of_rep a A B C e hd hB hC he
  have hfuel : priorDays a + r ≤ 146097 * (priorDays a + r) + 146096 := by omega
  simp only [decodeYear, decodeLoop400_eq _ _ hfuel]
  rw [hP]
  rcases hr with hr | ⟨hr, h4, h100⟩
  · -- ordinary day remainder: no i == 4 adjustment fires
    have h0 : (146097 * A + 36524 * B + 1461 * C + 365 * e + r) / 146097 = A := by omega
    have h0' : (146097 * A + 36524 * B + 1461 * C + 365 * e + r) % 146097 =
        36524 * B + 1461 * C + 365 * e + r := by omega
    rw [h0, h0']
    have h1 : (36524 * B + 1461 * C + 365 * e + r) / 36524 = B := by omega
    have h1' : (36524 * B + 1461 * C + 365 * e + r) % 36524 =
        1461 * C + 365 * e + r := by omega
    rw [h1, h1']
    have hB4 : ¬B = 4 := by omega
    simp only [if_neg hB4]
    have h2 : (1461 * C + 365 * e + r) / 1461 = C := by omega
    have h2' : (1461 * C + 365 * e + r) % 1461 = 365 * e + r := by omega
    rw [h2, h2']
    have h3 : (365 * e + r) / 365 = e := by omega
    have h3' : (365 * e + r) % 365 = r := by omega
    rw [h3, h3']
    have he4 : ¬e = 4 := by omega
    simp only [if_neg he4, Prod.mk.injEq, and_true]
    omega
  · -- r = 365: day 366 of a leap year; the i == 4 adjustments fire
    subst hr
    have he3 : e = 3 := by omega
    subst he3
    by_cases hC24 : C = 24
    · -- leap year at a century boundary (year divisible by 400)
      subst hC24
      have hB3 : B = 3 := by rcases h100 with h100 | h100 <;> omega
      subst hB3
      have h0 : (146097 * A + 36524 * 3 + 1461 * 24 + 365 * 3 + 365) / 146097 = A := by
        omega
      have h0' : (146097 * A + 36524 * 3 + 1461 * 24 + 365 * 3 + 365) % 146097 =
          146096 := by omega
      rw [h0, h0']
      split_ifs <;> simp only [Prod.mk.injEq, and_true] <;> omega
    · have h0 : (146097 * A + 36524 * B + 1461 * C + 365 * 3 + 365) / 146097 = A := by
        omega
      have h0' : (146097 * A + 36524 * B + 1461 * C + 365 * 3 + 365) % 146097 =
          36524 * B + 1461 * C + 1460 := by omega
      rw [h0, h0']
      have h1 : (36524 * B + 1461 * C + 1460) / 36524 = B := by omega
      have h1' : (36524 * B + 1461 * C + 1460) % 36524 = 1461 * C + 1460 := by omega
      rw [h1, h1']
      have hB4 : ¬B = 4 := by omega
      simp only [if_neg hB4]
      have h2 : (1461 * C + 1460) / 1461 = C := by omega
      have h2' : (1461 * C + 1460) % 1461 = 1460 := by omega
      rw [h2, h2']
      norm_num
      omega

/-- The month loop recovers month and day-of-month from a day-of-year
remainder placed after `m0` complete months. -/
theorem decodeMonthLoop_rec2 :
    ∀ kn : Nat, kn < 2 → ∀ m0 : Nat, m0 < 12 → ∀ dm1 : Nat,
      dm1 < (DaysPerMonth (kn : Int) (m0 : Int)).toNat →
      decodeMonthLoop (kn : Int) 12 1 ((cumDays (kn : Int) m0).toNat + dm1) =
        (m0 + 1, dm1) := by
  decide

/-- Cumulative month lengths are nonnegative and a full prefix plus the
next month never exceeds the year length. -/
theorem cumDays_bounds :
    ∀ kn : Nat, kn < 2 → ∀ m0 : Nat, m0 < 12 →
      0 ≤ cumDays (kn : Int) m0 ∧
      cumDays (kn : Int) m0 + DaysPerMonth (kn : Int) (m0 : Int) ≤ 365 + (kn : Int) := by
  decide

/-- `isLeapYear` on a positive year, restated with Nat arithmetic. -/
theorem isLeapYear_cast (a : Nat) :
    isLeapYear ((a : Int) + 1) =
      if (a + 1) % 4 = 0 ∧ ((a + 1) % 100 ≠ 0 ∨ (a + 1) % 400 = 0) then 1 else 0 := by
  unfold isLeapYear
  have h4 : ((a : Int) + 1).tmod 4 = ((a : Int) + 1) % 4 :=
    Int.tmod_eq_emod (by positivity) (by norm_num)
  have h100 : ((a : Int) + 1).tmod 100 = ((a : Int) + 1) % 100 :=
    Int.tmod_eq_emod (by positivity) (by norm_num)
  have h400 : ((a : Int) + 1).tmod 400 = ((a : Int) + 1) % 400 :=
    Int.tmod_eq_emod (by positivity) (by norm_num)
  rw [h4, h100, h400]
  have hiff : (((a : Int) + 1) % 4 = 0 ∧
      (((a : Int) + 1) % 100 ≠ 0 ∨ ((a : Int) + 1) % 400 = 0)) ↔
      ((a + 1) % 4 = 0 ∧ ((a + 1) % 100 ≠ 0 ∨ (a + 1) % 400 = 0)) := by
    omega
  exact if_congr hiff rfl rfl

/-- `isLeapYear` only returns 0 or 1. -/
theorem isLeapYear_cases (y : Int) : isLeapYear y = 0 ∨ isLeapYear y = 1 := by
  unfold isLeapYear
  split_ifs <;> simp

/-- Reading off the leap condition from `isLeapYear = 1`. -/
theorem isLeapYear_eq_one (a : Nat) (h : isLeapYear ((a : Int) + 1) = 1) :
    (a + 1) % 4 = 0 ∧ ((a + 1) % 100 ≠ 0 ∨ (a + 1) % 400 = 0) := by
  rw [isLeapYear_cast] at h
  by_contra hc
  rw [if_neg hc] at h
  exact absurd h (by norm_num)

/-- `datetime_encodeDate` on valid input equals prior-year days plus
cumulative month days plus the day, shifted by `DateDelta`. -/
theorem encodeDate_eq (y m d : Int) (hy1 : 1 ≤ y) (hy2 : y ≤ 9999) (hm1 : 1 ≤ m)
    (hm2 : m ≤ 12) (hd1 : 1 ≤ d) (hd2 : d ≤ DaysPerMonth (isLeapYear y) (m - 1)) :
    datetime_encodeDate y m d =
      (priorDays (y - 1).toNat : Int) + cumDays (isLeapYear y) (m - 1).toNat + d -
        DateDelta := by
  simp only [datetime_encodeDate]
  rw [if_pos ⟨hy1, hy2, hm1, hm2, hd1, hd2⟩]
  simp only [cumDays, priorDays]
  have ht4 : (y - 1).tdiv 4 = (y - 1) / 4 := Int.tdiv_eq_ediv (by omega) (by norm_num)
  have ht100 : (y - 1).tdiv 100 = (y - 1) / 100 := Int.tdiv_eq_ediv (by omega) (by norm_num)
  have ht400 : (y - 1).tdiv 400 = (y - 1) / 400 := Int.tdiv_eq_ediv (by omega) (by norm_num)
  rw [ht4, ht100, ht400]
  omega

/-- The date round trip on Nat-indexed year/month/day offsets. -/
theorem roundtrip_nat (a m0 dm1 : Nat) (ha : a ≤ 9998) (hm : m0 < 12)
    (hdm : dm1 < (DaysPerMonth (isLeapYear ((a : Int) + 1)) (m0 : Int)).toNat) :
    datetime_decodeDate
        (datetime_encodeDate ((a : Int) + 1) ((m0 : Int) + 1) ((dm1 : Int) + 1)) =
      ((a : Int) + 1, (m0 : Int) + 1, (dm1 : Int) + 1) := by
  obtain ⟨kn, hkn2, hkcast⟩ :
      ∃ kn : Nat, kn < 2 ∧ ((kn : Int)) = isLeapYear ((a : Int) + 1) := by
    rcases isLeapYear_cases ((a : Int) + 1) with h | h
    · exact ⟨0, by norm_num, by rw [h]; rfl⟩
    · exact ⟨1, by norm_num, by rw [h]; rfl⟩
  rw [← hkcast] at hdm
  have hcum := cumDays_bounds kn hkn2 m0 hm
  rw [encodeDate_eq ((a : Int) + 1) ((m0 : Int) + 1) ((dm1 : Int) + 1) (by omega) (by omega)
    (by omega) (by omega) (by omega)
    (by rw [show ((m0 : Int) + 1 - 1) = (m0 : Int) by omega, ← hkcast]; omega)]
  rw [show ((a : Int) + 1 - 1).toNat = a by omega]
  rw [show ((m0 : Int) + 1 - 1).toNat = m0 by omega]
  rw [← hkcast]
  have hdm' : (dm1 : Int) < DaysPerMonth (kn : Int) (m0 : Int) := by omega
  have hr : (cumDays (kn : Int) m0).toNat + dm1 ≤ 364 ∨
      ((cumDays (kn : Int) m0).toNat + dm1 = 365 ∧ (a + 1) % 4 = 0 ∧
        ((a + 1) % 100 ≠ 0 ∨ (a + 1) % 400 = 0)) := by
    by_cases hk0 : kn = 0
    · subst hk0
      left
      omega
    · have hk1 : kn = 1 := by omega
      subst hk1
      by_cases hle : (cumDays ((1 : Nat) : Int) m0).toNat + dm1 ≤ 364
      · exact Or.inl hle
      · have hl : isLeapYear ((a : Int) + 1) = 1 := by rw [← hkcast]; norm_num
        exact Or.inr ⟨by omega, isLeapYear_eq_one a hl⟩
  simp only [datetime_decodeDate]
  rw [if_neg (by omega :
    ¬((priorDays a : Int) + cumDays (kn : Int) m0 + ((dm1 : Int) + 1) - DateDelta +
        DateDelta ≤ 0))]
  rw [show ((priorDays a : Int) + cumDays (kn : Int) m0 + ((dm1 : Int) + 1) - DateDelta +
      DateDelta - 1).toNat = priorDays a + ((cumDays (kn : Int) m0).toNat + dm1) by omega]
  rw [decodeYear_eq a ((cumDays (kn : Int) m0).toNat + dm1) ha hr]
  rw [show ((a + 1 : Nat) : Int) = (a : Int) + 1 by push_cast; ring]
  rw [← hkcast]
  rw [decodeMonthLoop_rec2 kn hkn2 m0 hm dm1 hdm]
  push_cast
  rfl

/-- Series/attribute/result agreement for one subcatchment scalar. -/
theorem subcatch_duality (h : SMOutputAPI) (f : ByteFile) (p i a : Int)
    (hopen : h.fileOpen = true)
    (hi : 0 ≤ i ∧ i < h.Nsubcatch) (ha : 0 ≤ a ∧ a < h.SubcatchVars)
    (hp : 0 ≤ i * h.SubcatchVars)
    (hr : RECORDSIZE * (i * h.SubcatchVars + a) < 2 ^ 31) :
    (SMO_getSubcatchSeries h f i a p 1 false).outValues = [getSubcatchValue h f p i a] ∧
    (SMO_getSubcatchAttribute h f p a false).outValues.get? i.toNat =
      some (getSubcatchValue h f p i a) ∧
    (SMO_getSubcatchResult h f p i false).outValues.get? a.toNat =
      some (getSubcatchValue h f p i a) := by
  unfold RECORDSIZE at hr
  refine ⟨?_, ?_, ?_⟩
  · simp [SMO_getSubcatchSeries, hopen, List.range_succ, List.range_zero]
  · simp only [SMO_getSubcatchAttribute, hopen, Bool.not_true, Bool.false_eq_true,
      if_false]
    rw [List.get?_map, List.get?_range (by omega), Option.map_some']
    rw [Int.toNat_of_nonneg hi.1]
  · simp only [SMO_getSubcatchResult, hopen, Bool.not_true, Bool.false_eq_true, if_false]
    rw [List.get?_map, List.get?_range (by omega), Option.map_some']
    congr 1
    unfold getSubcatchValue
    congr 1
    unfold subcatchResultBase subcatchValueOffset RECORDSIZE
    rw [Int.toNat_of_nonneg ha.1]
    rw [wrap32_eq_self (by omega) (by omega), wrap32_eq_self (by omega) (by omega)]
    ring

/-- Series/attribute/result agreement for one node scalar. -/
theorem node_duality (h : SMOutputAPI) (f : ByteFile) (p i a : Int)
    (hopen : h.fileOpen = true)
    (hi : 0 ≤ i ∧ i < h.Nnodes) (ha : 0 ≤ a ∧ a < h.NodeVars)
    (hp1 : 0 ≤ h.Nsubcatch * h.SubcatchVars) (hp : 0 ≤ i * h.NodeVars)
    (hr : RECORDSIZE * (h.Nsubcatch * h.SubcatchVars + i * h.NodeVars + a) < 2 ^ 31) :
    (SMO_getNodeSeries h f i a p 1 false).outValues = [getNodeValue h f p i a] ∧
    (SMO_getNodeAttribute h f p a false).outValues.get? i.toNat =
      some (getNodeValue h f p i a) ∧
    (SMO_getNodeResult h f p i false).outValues.get? a.toNat =
      some (getNodeValue h f p i a) := by
  unfold RECORDSIZE at hr
  refine ⟨?_, ?_, ?_⟩
  · simp [SMO_getNodeSeries, hopen, List.range_succ, List.range_zero]
  · simp only [SMO_getNodeAttribute, hopen, Bool.not_true, Bool.false_eq_true, if_false]
    rw [List.get?_map, List.get?_range (by omega), Option.map_some']
    rw [Int.toNat_of_nonneg hi.1]
  · simp only [SMO_getNodeResult, hopen, Bool.not_true, Bool.false_eq_true, if_false]
    rw [List.get?_map, List.get?_range (by omega), Option.map_some']
    congr 1
    unfold getNodeValue
    congr 1
    unfold nodeResultBase nodeValueOffset RECORDSIZE
    rw [Int.toNat_of_nonneg ha.1]
    rw [wrap32_eq_self (by omega) (by omega), wrap32_eq_self (by omega) (by omega)]
    ring

/-- Series/attribute/result agreement for one link scalar. -/
theorem link_duality (h : SMOutputAPI) (f : ByteFile) (p i a : Int)
    (hopen : h.fileOpen = true)
    (hi : 0 ≤ i ∧ i < h.Nlinks) (ha : 0 ≤ a ∧ a < h.LinkVars)
    (hp1 : 0 ≤ h.Nsubcatch * h.SubcatchVars) (hp2 : 0 ≤ h.Nnodes * h.NodeVars)
    (hp : 0 ≤ i * h.LinkVars)
    (hr : RECORDSIZE * (h.Nsubcatch * h.SubcatchVars + h.Nnodes * h.NodeVars +
      i * h.LinkVars + a) < 2 ^ 31) :
    (SMO_getLinkSeries h f i a p 1 false).outValues = [getLinkValue h f p i a] ∧
    (SMO_getLinkAttribute h f p a false).outValues.get? i.toNat =
      some (getLinkValue h f p i a) ∧
    (SMO_getLinkResult h f p i false).outValues.get? a.toNat =
      some (getLinkValue h f p i a) := by
  unfold RECORDSIZE at hr
  refine ⟨?_, ?_, ?_⟩
  · simp [SMO_getLinkSeries, hopen, List.range_succ, List.range_zero]
  · simp only [SMO_getLinkAttribute, hopen, Bool.not_true, Bool.false_eq_true, if_false]
    rw [List.get?_map, List.get?_range (by omega), Option.map_some']
    rw [Int.toNat_of_nonneg hi.1]
  · simp only [SMO_getLinkResult, hopen, Bool.not_true, Bool.false_eq_true, if_false]
    rw [List.get?_map, List.get?_range (by omega), Option.map_some']
    congr 1
    unfold getLinkValue
    congr 1
    unfold linkResultBase linkValueOffset RECORDSIZE
    rw [Int.toNat_of_nonneg ha.1]
    rw [wrap32_eq_self (by omega) (by omega), wrap32_eq_self (by omega) (by omega)]
    ring

/-- Series/attribute/result agreement for one system scalar. -/
theorem system_duality (h : SMOutputAPI) (f : ByteFile) (p a : Int)
    (hopen : h.fileOpen = true)
    (ha : 0 ≤ a ∧ a < h.SysVars)
    (hp1 : 0 ≤ h.Nsubcatch * h.SubcatchVars) (hp2 : 0 ≤ h.Nnodes * h.NodeVars)
    (hp3 : 0 ≤ h.Nlinks * h.LinkVars)
    (hr : RECORDSIZE * (h.Nsubcatch * h.SubcatchVars + h.Nnodes * h.NodeVars +
      h.Nlinks * h.LinkVars + a) < 2 ^ 31) :
    (SMO_getSystemSeries h f a p 1 false).outValues = [getSystemValue h f p a] ∧
    (SMO_getSystemAttribute h f p a false).outValues.get? 0 =
      some (getSystemValue h f p a) ∧
    (SMO_getSystemResult h f p false).outValues.get? a.toNat =
      some (getSystemValue h f p a) := by
  unfold RECORDSIZE at hr
  refine ⟨?_, ?_, ?_⟩
  · simp [SMO_getSystemSeries, hopen, List.range_succ, List.range_zero]
  · simp [SMO_getSystemAttribute, hopen]
  · simp only [SMO_getSystemResult, hopen, Bool.not_true, Bool.false_eq_true, if_false]
    rw [List.get?_map, List.get?_range (by omega), Option.map_some']
    congr 1
    unfold getSystemValue
    congr 1
    unfold systemResultBase systemValueOffset RECORDSIZE
    rw [Int.toNat_of_nonneg ha.1]
    rw [wrap32_eq_self (by omega) (by omega), wrap32_eq_self (by omega) (by omega)]
    ring

/-- C1: for every open handle, period `p`, entity kind among Subcatchment,
Node, Link and System, attribute ordinal valid for the kind, and entity
index valid for the kind (index 0 for the singleton system), the scalar
written by `get_K_series(i, a, p, 1)` equals element `i` of the array
written by `get_K_attribute(p, a)` and equals element `a` of the array
written by `get_K_result(p, i)`.  The range hypotheses keep the C `int`
offset arithmetic inside defined (non-overflowing) territory. -/
theorem series_attribute_result_duality (h : SMOutputAPI) (f : ByteFile)
    (p iS aS iN aN iL aL aY : Int)
    (hopen : h.fileOpen = true)
    (hiS : 0 ≤ iS ∧ iS < h.Nsubcatch) (haS : 0 ≤ aS ∧ aS < h.SubcatchVars)
    (hpS : 0 ≤ iS * h.SubcatchVars)
    (hrS : RECORDSIZE * (iS * h.SubcatchVars + aS) < 2 ^ 31)
    (hiN : 0 ≤ iN ∧ iN < h.Nnodes) (haN : 0 ≤ aN ∧ aN < h.NodeVars)
    (hpN : 0 ≤ iN * h.NodeVars)
    (hrN : RECORDSIZE * (h.Nsubcatch * h.SubcatchVars + iN * h.NodeVars + aN) < 2 ^ 31)
    (hiL : 0 ≤ iL ∧ iL < h.Nlinks) (haL : 0 ≤ aL ∧ aL < h.LinkVars)
    (hpL : 0 ≤ iL * h.LinkVars)
    (hrL : RECORDSIZE * (h.Nsubcatch * h.SubcatchVars + h.Nnodes * h.NodeVars +
      iL * h.LinkVars + aL) < 2 ^ 31)
    (haY : 0 ≤ aY ∧ aY < h.SysVars)
    (hp1 : 0 ≤ h.Nsubcatch * h.SubcatchVars) (hp2 : 0 ≤ h.Nnodes * h.NodeVars)
    (hp3 : 0 ≤ h.Nlinks * h.LinkVars)
    (hrY : RECORDSIZE * (h.Nsubcatch * h.SubcatchVars + h.Nnodes * h.NodeVars +
      h.Nlinks * h.LinkVars + aY) < 2 ^ 31) :
    ((SMO_getSubcatchSeries h f iS aS p 1 false).outValues =
        [getSubcatchValue h f p iS aS] ∧
      (SMO_getSubcatchAttribute h f p aS false).outValues.get? iS.toNat =
        some (getSubcatchValue h f p iS aS) ∧
      (SMO_getSubcatchResult h f p iS false).outValues.get? aS.toNat =
        some (getSubcatchValue h f p iS aS)) ∧
    ((SMO_getNodeSeries h f iN aN p 1 false).outValues = [getNodeValue h f p iN aN] ∧
      (SMO_getNodeAttribute h f p aN false).outValues.get? iN.toNat =
        some (getNodeValue h f p iN aN) ∧
      (SMO_getNodeResult h f p iN false).outValues.get? aN.toNat =
        some (getNodeValue h f p iN aN)) ∧
    ((SMO_getLinkSeries h f iL aL p 1 false).outValues = [getLinkValue h f p iL aL] ∧
      (SMO_getLinkAttribute h f p aL false).outValues.get? iL.toNat =
        some (getLinkValue h f p iL aL) ∧
      (SMO_getLinkResult h f p iL false).outValues.get? aL.toNat =
        some (getLinkValue h f p iL aL)) ∧
    ((SMO_getSystemSeries h f aY p 1 false).outValues = [getSystemValue h f p aY] ∧
      (SMO_getSystemAttribute h f p aY false).outValues.get? 0 =
        some (getSystemValue h f p aY) ∧
      (SMO_getSystemResult h f p false).outValues.get? aY.toNat =
        some (getSystemValue h f p aY)) :=
  ⟨subcatch_duality h f p iS aS hopen hiS haS hpS hrS,
   node_duality h f p iN aN hopen hiN haN hp1 hpN hrN,
   link_duality h f p iL aL hopen hiL haL hp1 hp2 hpL hrL,
   system_duality h f p aY hopen haY hp1 hp2 hp3 hrY⟩

/-- Witness for C1 at the concrete demo handle with all indices 0 and
period 1, read off the link conjunct. -/
theorem series_attribute_result_duality_witness :
    (demoHandle.fileOpen = true ∧
      ((0 : Int) ≤ 0 ∧ (0 : Int) < demoHandle.Nlinks) ∧
      ((0 : Int) ≤ 0 ∧ (0 : Int) < demoHandle.LinkVars) ∧
      RECORDSIZE * (demoHandle.Nsubcatch * demoHandle.SubcatchVars +
        demoHandle.Nnodes * demoHandle.NodeVars + 0 * demoHandle.LinkVars + 0) < 2 ^ 31) ∧
    ((SMO_getLinkSeries demoHandle zeroFile 0 0 1 1 false).outValues =
        [getLinkValue demoHandle zeroFile 1 0 0] ∧
      (SMO_getLinkAttribute demoHandle zeroFile 1 0 false).outValues.get? (0 : Int).toNat =
        some (getLinkValue demoHandle zeroFile 1 0 0) ∧
      (SMO_getLinkResult demoHandle zeroFile 1 0 false).outValues.get? (0 : Int).toNat =
        some (getLinkValue demoHandle zeroFile 1 0 0)) :=
  ⟨⟨by decide, by decide, by decide, by decide⟩,
    (series_attribute_result_duality demoHandle zeroFile 1 0 0 0 0 0 0 0 (by decide)
      (by decide) (by decide) (by decide) (by decide) (by decide) (by decide) (by decide)
      (by decide) (by decide) (by decide) (by decide) (by decide) (by decide) (by decide)
      (by decide) (by decide) (by decide)).2.2.1⟩

/-- C2: for a handle whose `BytesPerPeriod` is the value `SMO_open`
computes, and for `int` expressions within range, the link scalar read
for period `p`, link `i`, attribute `a` is exactly the 4-byte read at
the absolute offset `results_pos + p·bytes_per_period + 8 +
4·(n_sub·v_sub + n_node·v_node + i·v_link + a)` with
`bytes_per_period = 8 + 4·(n_sub·v_sub + n_node·v_node + n_link·v_link
+ v_sys)` (`specLinkScalarOffset`), and it depends on no other bytes of
the file. -/
theorem getLinkValue_reads_spec_offset (h : SMOutputAPI) (f : ByteFile) (p i a : Int)
    (hbpp : h.BytesPerPeriod = openBytesPerPeriod h.Nsubcatch h.SubcatchVars h.Nnodes
      h.NodeVars h.Nlinks h.LinkVars h.SysVars)
    (hs1 : 0 ≤ DATESIZE + (h.Nsubcatch * h.SubcatchVars + h.Nnodes * h.NodeVars +
      h.Nlinks * h.LinkVars + h.SysVars) * RECORDSIZE)
    (hs2 : DATESIZE + (h.Nsubcatch * h.SubcatchVars + h.Nnodes * h.NodeVars +
      h.Nlinks * h.LinkVars + h.SysVars) * RECORDSIZE < 2 ^ 31)
    (ho1 : 0 ≤ RECORDSIZE * (h.Nsubcatch * h.SubcatchVars + h.Nnodes * h.NodeVars +
      i * h.LinkVars + a))
    (ho2 : RECORDSIZE * (h.Nsubcatch * h.SubcatchVars + h.Nnodes * h.NodeVars +
      i * h.LinkVars + a) < 2 ^ 31) :
    getLinkValue h f p i a = read4 f (specLinkScalarOffset h p i a) ∧
    (∀ g : ByteFile,
      g (specLinkScalarOffset h p i a) = f (specLinkScalarOffset h p i a) →
      g (specLinkScalarOffset h p i a + 1) = f (specLinkScalarOffset h p i a + 1) →
      g (specLinkScalarOffset h p i a + 2) = f (specLinkScalarOffset h p i a + 2) →
      g (specLinkScalarOffset h p i a + 3) = f (specLinkScalarOffset h p i a + 3) →
      getLinkValue h g p i a = getLinkValue h f p i a) := by
  have hoffeq : linkValueOffset h p i a = specLinkScalarOffset h p i a := by
    unfold linkValueOffset specLinkScalarOffset
    rw [hbpp]
    unfold openBytesPerPeriod
    rw [wrap32_eq_self (by omega) (by omega), wrap32_eq_self (by omega) (by omega)]
    unfold RECORDSIZE DATESIZE
    ring
  constructor
  · unfold getLinkValue
    rw [hoffeq]
  · intro g h0 h1 h2 h3
    unfold getLinkValue read4
    rw [hoffeq, h0, h1, h2, h3]

/-- Witness for C2 at the demo handle, period 1, link 0, attribute 0. -/
theorem getLinkValue_reads_spec_offset_witness :
    (demoHandle.BytesPerPeriod = openBytesPerPeriod demoHandle.Nsubcatch
        demoHandle.SubcatchVars demoHandle.Nnodes demoHandle.NodeVars demoHandle.Nlinks
        demoHandle.LinkVars demoHandle.SysVars ∧
      0 ≤ RECORDSIZE * (demoHandle.Nsubcatch * demoHandle.SubcatchVars +
        demoHandle.Nnodes * demoHandle.NodeVars + 0 * demoHandle.LinkVars + 0)) ∧
    getLinkValue demoHandle zeroFile 1 0 0 =
      read4 zeroFile (specLinkScalarOffset demoHandle 1 0 0) :=
  ⟨⟨by decide, by decide⟩,
    (getLinkValue_reads_spec_offset demoHandle zeroFile 1 0 0 (by decide) (by decide)
      (by decide) (by decide) (by decide)).1⟩

/-- C3 counterexample: a concrete 28-byte file whose leading and trailing
magic agree and whose stored run error code is non-zero, but whose
`Nperiods` epilogue field is 0; `SMO_open` returns 436 (`NoResults`),
not 435, because `validateFile` checks `Nperiods <= 0` before the
stored error code. -/
theorem open_terminating_error_counterexample :
    (readEpilogue magicErrFile 28).magic1 = (readEpilogue magicErrFile 28).magic2 ∧
    (readEpilogue magicErrFile 28).errcode ≠ 0 ∧
    SMO_open_err true magicErrFile 28 = 436 ∧ (436 : Int) ≠ 435 := by
  refine ⟨by decide, by decide, by decide, by decide⟩

/-- C3 (amended): with matching magic numbers and a non-zero stored run
error code, `SMO_open` fails with 435 (`RunTerminatedNoResults`) when
the epilogue `Nperiods` is positive, and with 436 (`NoResults`) when
`Nperiods <= 0`: the `Nperiods` check precedes the error-code check. -/
theorem open_terminating_error_amended (f : ByteFile) (size : Int)
    (hm : (readEpilogue f size).magic1 = (readEpilogue f size).magic2)
    (he : (readEpilogue f size).errcode ≠ 0) :
    SMO_open_err true f size =
      if (readEpilogue f size).Nperiods ≤ 0 then 436 else 435 := by
  unfold SMO_open_err validateFile
  simp only [Bool.not_true, Bool.false_eq_true, if_false]
  rw [if_neg (by simp [hm])]
  split_ifs with hn
  · rfl
  · rfl

/-- Witness for the amended C3 at the concrete `magicErrFile`. -/
theorem open_terminating_error_amended_witness :
    ((readEpilogue magicErrFile 28).magic1 = (readEpilogue magicErrFile 28).magic2 ∧
      (readEpilogue magicErrFile 28).errcode ≠ 0) ∧
    SMO_open_err true magicErrFile 28 =
      if (readEpilogue magicErrFile 28).Nperiods ≤ 0 then 436 else 435 :=
  ⟨⟨by decide, by decide⟩,
    open_terminating_error_amended magicErrFile 28 (by decide) (by decide)⟩

/-- C4: on a handle whose file is null (here: after a failed open) with no
ID table loaded, `SMO_getElementName` does not return 412 (`NotOpen`):
the source never checks `smoapi->file`, returns 0 for a valid index,
and first runs `initElementNames`, which seeks and reads the (null)
file.  Every other §4.4 operation, e.g. `SMO_getProjectSize`, does
return 412 on the same handle. -/
theorem elementName_skips_open_check :
    closedHandle.fileOpen = false ∧
    closedHandle.elementNamesLoaded = false ∧
    (SMO_getElementName closedHandle 0 0).1 = 0 ∧
    (SMO_getElementName closedHandle 0 0).1 ≠ 412 ∧
    (SMO_getElementName closedHandle 0 0).2 = true ∧
    (SMO_getProjectSize closedHandle 0).1 = 412 := by
  refine ⟨by decide, by decide, by decide, by decide, by decide, by decide⟩

/-- C5 counterexample: `SMO_errMessage` on code 423 (`OutOfRange`) returns
421 and writes nothing, instead of returning 0 with a message. -/
theorem errMessage_423_counterexample :
    (SMO_errMessage 423 64).1 = 421 ∧ (SMO_errMessage 423 64).1 ≠ 0 ∧
    (SMO_errMessage 423 64).2 = none := by
  refine ⟨by decide, by decide, by decide⟩

/-- C5 (amended): the switch in `SMO_errMessage` covers exactly the codes
411, 412, 421, 434 and 435, copying the fixed message truncated at `n`
and returning 0; every other code (including 423, 436 and 441) returns
421 (`InvalidParameter`) without writing the buffer. -/
theorem errMessage_amended (c : Int) (n : Nat)
    (hc : ¬(c = 411 ∨ c = 412 ∨ c = 421 ∨ c = 434 ∨ c = 435)) :
    (SMO_errMessage 411 n = (0, some (strncpyTo ERR411 n)) ∧
      SMO_errMessage 412 n = (0, some (strncpyTo ERR412 n)) ∧
      SMO_errMessage 421 n = (0, some (strncpyTo ERR421 n)) ∧
      SMO_errMessage 434 n = (0, some (strncpyTo ERR434 n)) ∧
      SMO_errMessage 435 n = (0, some (strncpyTo ERR435 n))) ∧
    SMO_errMessage c n = (421, none) := by
  push_neg at hc
  constructor
  · refine ⟨?_, ?_, ?_, ?_, ?_⟩ <;> simp [SMO_errMessage]
  · unfold SMO_errMessage
    rw [if_neg hc.1, if_neg hc.2.1, if_neg hc.2.2.1, if_neg hc.2.2.2.1,
      if_neg hc.2.2.2.2]

/-- Witness for the amended C5 at code 436. -/
theorem errMessage_amended_witness :
    (¬((436 : Int) = 411 ∨ (436 : Int) = 412 ∨ (436 : Int) = 421 ∨ (436 : Int) = 434 ∨
        (436 : Int) = 435)) ∧
    SMO_errMessage 436 32 = (421, none) :=
  ⟨by decide, (errMessage_amended 436 32 (by decide)).2⟩

/-- C6: on an open handle, `SMO_newOutValueSeries` reports the length
`min(seriesLength - seriesStart, Nperiods)` (also when that value is
zero or negative) and every element of the returned buffer is zero
(`calloc` zero-fills; allocation is modelled as succeeding). -/
theorem newOutValueSeries_spec (h : SMOutputAPI) (hopen : h.fileOpen = true)
    (seriesStart seriesLength : Int) :
    (SMO_newOutValueSeries h seriesStart seriesLength).2.1 =
      some (min (seriesLength - seriesStart) h.Nperiods) ∧
    ∀ x ∈ (SMO_newOutValueSeries h seriesStart seriesLength).1, x = 0 := by
  unfold SMO_newOutValueSeries
  simp only [hopen, Bool.not_true, Bool.false_eq_true, if_false]
  constructor
  · split_ifs with hgt
    · congr 1
      omega
    · congr 1
      omega
  · intro x hx
    split_ifs at hx <;> exact List.eq_of_mem_replicate hx

/-- Witness for C6 on the demo handle (4 periods, range 2..10). -/
theorem newOutValueSeries_spec_witness :
    demoHandle.fileOpen = true ∧
    ((SMO_newOutValueSeries demoHandle 2 10).2.1 =
        some (min ((10 : Int) - 2) demoHandle.Nperiods) ∧
      ∀ x ∈ (SMO_newOutValueSeries demoHandle 2 10).1, x = 0) :=
  ⟨by decide, newOutValueSeries_spec demoHandle (by decide) 2 10⟩

/-- C7: because the `else` before its body is missing,
`SMO_getSystemResult` still executes its seek-and-read block when it
returns 411 (null output buffer) or 412 (null file), unlike
`SMO_getLinkResult`, whose guarded body is skipped in those cases. -/
theorem systemResult_missing_guard :
    ((SMO_getSystemResult demoHandle zeroFile 0 true).errorcode = 411 ∧
      (SMO_getSystemResult demoHandle zeroFile 0 true).touchesFile = true) ∧
    ((SMO_getSystemResult closedHandle zeroFile 0 false).errorcode = 412 ∧
      (SMO_getSystemResult closedHandle zeroFile 0 false).touchesFile = true) ∧
    (SMO_getLinkResult demoHandle zeroFile 0 0 true).touchesFile = false ∧
    (SMO_getLinkResult closedHandle zeroFile 0 0 false).touchesFile = false := by
  refine ⟨⟨by decide, by decide⟩, ⟨by decide, by decide⟩, by decide, by decide⟩

/-- C8: for every year 1..9999, month 1..12 and day up to
`datetime_daysPerMonth`, decoding the encoded date gives back exactly
`(year, month, day)`. -/
theorem date_encode_decode_roundtrip (y m d : Int) (hy1 : 1 ≤ y) (hy2 : y ≤ 9999)
    (hm1 : 1 ≤ m) (hm2 : m ≤ 12) (hd1 : 1 ≤ d) (hd2 : d ≤ datetime_daysPerMonth y m) :
    datetime_decodeDate (datetime_encodeDate y m d) = (y, m, d) := by
  unfold datetime_daysPerMonth at hd2
  rw [if_neg (by omega : ¬(m < 1 ∨ 12 < m))] at hd2
  have hyn : y = ((y - 1).toNat : Int) + 1 := by omega
  have hmn : m = ((m - 1).toNat : Int) + 1 := by omega
  have hdn : d = ((d - 1).toNat : Int) + 1 := by omega
  rw [hyn, hmn, hdn]
  apply roundtrip_nat
  · omega
  · omega
  · rw [← hyn]
    rw [Int.toNat_of_nonneg (show (0 : Int) ≤ m - 1 by omega)]
    omega

/-- Witness for C8 at the leap day 2024-02-29. -/
theorem date_encode_decode_roundtrip_witness :
    (1 ≤ (2024 : Int) ∧ (2024 : Int) ≤ 9999 ∧ 1 ≤ (2 : Int) ∧ (2 : Int) ≤ 12 ∧
      1 ≤ (29 : Int) ∧ (29 : Int) ≤ datetime_daysPerMonth 2024 2) ∧
    datetime_decodeDate (datetime_encodeDate 2024 2 29) = (2024, 2, 29) :=
  ⟨⟨by norm_num, by norm_num, by norm_num, by norm_num, by norm_num, by decide⟩,
    date_encode_decode_roundtrip 2024 2 29 (by norm_num) (by norm_num) (by norm_num)
      (by norm_num) (by norm_num) (by decide)⟩

/-- C9: on an open handle with a non-null output buffer, each of the four
`get_*_series` operations returns 0 for every entity index, attribute,
start period and length: none of these arguments is validated. -/
theorem series_no_range_validation (h : SMOutputAPI) (f : ByteFile)
    (hopen : h.fileOpen = true) (i a timeIndex length : Int) :
    (SMO_getSubcatchSeries h f i a timeIndex length false).errorcode = 0 ∧
    (SMO_getNodeSeries h f i a timeIndex length false).errorcode = 0 ∧
    (SMO_getLinkSeries h f i a timeIndex length false).errorcode = 0 ∧
    (SMO_getSystemSeries h f a timeIndex length false).errorcode = 0 := by
  unfold SMO_getSubcatchSeries SMO_getNodeSeries SMO_getLinkSeries SMO_getSystemSeries
  simp [hopen]

/-- Witness for C9 with wildly out-of-range arguments. -/
theorem series_no_range_validation_witness :
    demoHandle.fileOpen = true ∧
    ((SMO_getSubcatchSeries demoHandle zeroFile 50 (-2) (-7) 1000 false).errorcode = 0 ∧
      (SMO_getNodeSeries demoHandle zeroFile 50 (-2) (-7) 1000 false).errorcode = 0 ∧
      (SMO_getLinkSeries demoHandle zeroFile 50 (-2) (-7) 1000 false).errorcode = 0 ∧
      (SMO_getSystemSeries demoHandle zeroFile (-2) (-7) 1000 false).errorcode = 0) :=
  ⟨by decide, series_no_range_validation demoHandle zeroFile (by decide) 50 (-2) (-7) 1000⟩

/-- C10: whenever `SMO_getProjectSize`, `SMO_getUnits`, `SMO_getStartTime`
or `SMO_getTimes` returns a non-zero error code, its out-parameter
holds the sentinel -1 (written unconditionally before any check). -/
theorem failure_leaves_sentinel (h : SMOutputAPI) (code : Int) :
    ((SMO_getProjectSize h code).1 ≠ 0 → (SMO_getProjectSize h code).2 = -1) ∧
    ((SMO_getUnits h code).1 ≠ 0 → (SMO_getUnits h code).2 = -1) ∧
    ((SMO_getStartTime h).1 ≠ 0 → (SMO_getStartTime h).2 = -1) ∧
    ((SMO_getTimes h code).1 ≠ 0 → (SMO_getTimes h code).2 = -1) := by
  unfold SMO_getProjectSize SMO_getUnits SMO_getStartTime SMO_getTimes
  refine ⟨?_, ?_, ?_, ?_⟩ <;> split_ifs <;> simp

/-- Witness for C10: a closed handle fails `SMO_getProjectSize` with the
sentinel left at -1. -/
theorem failure_leaves_sentinel_witness :
    (SMO_getProjectSize closedHandle 5).1 ≠ 0 ∧
    (SMO_getProjectSize closedHandle 5).2 = -1 :=
  ⟨by decide, (failure_leaves_sentinel closedHandle 5).1 (by decide)⟩

end Swmm
